import Mathlib

/-
Verification development for scripts/hook-enforcer.py: a shallow embedding of
the enforcement script's data model, tracker client, lifecycle handlers and
CLI entry point, followed by theorems about the specified behaviour.

Modelling conventions:
- The external activity tracker is a black box (the spec lists it as an
  external collaborator).  It is modelled as a function from the argument
  list of the subprocess call to a raw subprocess outcome (completion with
  an exit code and output, a timeout, or a raised exception).
- Subprocess standard output is modelled by its JSON parse status: a value
  of type JsonText is either the JSON value the text parses to, or marks
  text that is not valid JSON.  The synthetic strings the Python code
  builds in its exception handlers are mapped to their actual parse status.
- The handlers in the source print a JSON decision and exit the process via
  output_allow / output_warn / output_block.  The embedding has handlers
  return a Verdict (early process exit becomes an early function return),
  and the entry point encodes the verdict with the same JSON envelope and
  exit code as the source's output_* functions.
- Every tracker subprocess invocation is recorded, in order, in a trace of
  argument lists, so that theorems can speak about which rule queries a
  code path issues.
-/

set_option maxRecDepth 4000

namespace CCCC

/-- JSON values, as produced by parsing tracker output or hook stdin. -/
inductive JVal where
  | null
  | bool (b : Bool)
  | num (n : Int)
  | str (s : String)
  | arr (elems : List JVal)
  | obj (fields : List (String × JVal))

/-- A Python dict with string keys, as the handlers receive for tool input. -/
abbrev JObj := List (String × JVal)

/-- Standard output of a subprocess, modelled by its JSON parse status:
either the JSON value the text parses to, or text that is not valid JSON
(which also covers empty output). -/
inductive JsonText where
  | valid (v : JVal)
  | invalid

/-- json.loads on modelled text: the parsed value, or a parse failure. -/
def json_loads : JsonText → Option JVal
  | JsonText.valid v => some v
  | JsonText.invalid => none

/-- Python truthiness of a JSON value, as used by the conditionals on
file_path and files_edited. -/
def pyTruthy : JVal → Bool
  | JVal.null => false
  | JVal.bool b => b
  | JVal.num n => !(n == 0)
  | JVal.str s => !(s == "")
  | JVal.arr elems => !elems.isEmpty
  | JVal.obj fields => !fields.isEmpty

/-- Helper for substring search: does the haystack list contain the needle
list as a contiguous sublist? -/
def containsAux [BEq α] (needle : List α) : List α → Bool
  | [] => needle.isEmpty
  | c :: cs => needle.isPrefixOf (c :: cs) || containsAux needle cs

/-- Python membership test of one string in another: substring containment. -/
def strContains (hay needle : String) : Bool :=
  containsAux needle.data hay.data

/-- Python str.startswith. -/
def strStartsWith (s pre : String) : Bool :=
  pre.data.isPrefixOf s.data

/-- Reads tool_input.get(key, "") for a field the handlers consume as a
string (file_path, old_string, new_string, content, subagent_type).  When
the key is present with a non-string value the Python program would raise
a TypeError at the first string operation on that value; the theorems
below restrict themselves to inputs whose relevant fields are absent or
strings (fieldStrOrAbsent), where this total model agrees with the code. -/
def getStrField (o : JObj) (k : String) : String :=
  match o.lookup k with
  | some (JVal.str s) => s
  | _ => ""

/-- The key is absent, or present with a string value: exactly the inputs
on which getStrField is a faithful model of the Python field reads. -/
def fieldStrOrAbsent (o : JObj) (k : String) : Bool :=
  match o.lookup k with
  | none => true
  | some (JVal.str _) => true
  | some _ => false

/-- Tool-agent subagent identifiers (TOOL_AGENTS frozenset in the source). -/
def TOOL_AGENTS : List String :=
  ["serena-agent", "context7-agent", "websearch-agent", "webfetch-agent",
   "sequential-thinking-agent", "github-search-agent", "claude-docs-agent",
   "git-agent", "Explore", "Plan", "general-purpose"]

/-- Advisor subagent identifiers (ADVISORS frozenset in the source). -/
def ADVISORS : List String :=
  ["bash-advisor", "c-advisor", "nix-advisor", "python-advisor",
   "architecture-analyst", "conventions-analyst", "critical-code-reviewer",
   "lint-interpreter", "test-interpreter"]

/-- Tools that constitute file editing (FILE_EDIT_TOOLS in the source). -/
def FILE_EDIT_TOOLS : List String := ["Edit", "Write", "NotebookEdit"]

/-
The MSG_* constants in the source are large templated human-readable
policy texts; the spec explicitly excludes that static message text from
the core.  Each message is modelled by a distinct stand-in string, its
title line, which is all the control flow depends on (the messages only
need to be distinguishable).
-/

/-- Block message for the todo_before_edit rule. -/
def MSG_TODO_BEFORE_EDIT : String :=
  "BLOCKED: To-Do List Required Before Editing"

/-- Block message for the tool_agents_before_edit rule. -/
def MSG_TOOL_AGENTS_BEFORE_EDIT : String :=
  "BLOCKED: Tool-Agent Intelligence Required Before Implementation"

/-- Block message for the sequential_before_todo rule. -/
def MSG_SEQUENTIAL_BEFORE_TODO : String :=
  "BLOCKED: Sequential Thinking Required Before To-Do Creation"

/-- Block message for the advisors_before_stop rule. -/
def MSG_ADVISORS_BEFORE_STOP : String :=
  "BLOCKED: Adversarial Review Required Before Completion"

/-- Block message for the reflection_before_stop rule. -/
def MSG_REFLECTION_BEFORE_STOP : String :=
  "BLOCKED: Critical Reflection Required Before Completion"

/-- Warning message for large edits. -/
def MSG_WARN_LARGE_EDIT : String :=
  "Large Edit Warning"

/-- Warning message for repeated edits of the same file. -/
def MSG_WARN_REPEATED_EDIT : String :=
  "Repeated Edit Warning"

/-- Block message for project-level configuration in the cccc repository. -/
def MSG_BLOCK_CCCC_PROJECT_CONFIG : String :=
  "BLOCKED: Project-Level Configuration Denied in cccc"

/-- Raw outcome of one subprocess invocation of the activity tracker:
normal completion with an exit code and standard output, expiry of the
10-second timeout (subprocess.TimeoutExpired), or any other exception
raised while spawning or running it, carrying the exception message. -/
inductive SubprocOutcome where
  | completed (exitCode : Int) (stdout : JsonText)
  | timeoutExpired
  | raised (msg : String)

/-- The external tracker as a black box: what the subprocess does for each
argument list passed to activity-tracker.py. -/
abbrev Env := List String → SubprocOutcome

/-- Trace of tracker subprocess invocations, in call order, each recorded
as the argument list passed to activity-tracker.py. -/
abbrev Trace := List (List String)

/-- Parse status of the synthetic string the exception handler builds by
interpolating the exception message into a JSON error template.  The
template parses to the expected object exactly when the message contains
no character that disturbs the JSON string literal (a double quote, a
backslash, or a control character); other messages are not exercised by
any theorem below. -/
def pyFormatErrorJson (e : String) : JsonText :=
  if e.data.all (fun c => !(c == '\"') && !(c == '\\') && decide (32 ≤ c.toNat)) then
    JsonText.valid (JVal.obj [("error", JVal.str e)])
  else
    JsonText.invalid

/-- The try/except body of run_tracker: a completed subprocess yields its
exit code and output; a timeout yields exit code 1 and the fixed
tracker-timeout error JSON; any other exception yields exit code 1 and the
interpolated error JSON. -/
def subprocCatch : SubprocOutcome → Int × JsonText
  | SubprocOutcome.completed code out => (code, out)
  | SubprocOutcome.timeoutExpired =>
      (1, JsonText.valid (JVal.obj [("error", JVal.str ("tracker timeout"))]))
  | SubprocOutcome.raised e => (1, pyFormatErrorJson e)

/-- run_tracker: invoke the tracker subprocess with the given arguments,
record the invocation in the trace, and return (exit code, stdout); the
except clauses guarantee it never raises. -/
def run_tracker (env : Env) (trace : Trace) (args : List String) :
    (Int × JsonText) × Trace :=
  (subprocCatch (env args), trace ++ [args])

/-- Argument list built by check_rule: the extra argument is appended only
when non-empty. -/
def checkArgs (rule extra : String) : List String :=
  if extra == "" then ["check", rule] else ["check", rule, extra]

/-- Argument list built by track: the data argument is appended only when
non-empty. -/
def trackArgs (track_type data : String) : List String :=
  if data == "" then ["track", track_type] else ["track", track_type, data]

/-- check_rule: run the tracker's check operation; passed is defined as
"exit code equals zero"; the result dict is the parsed stdout, or the
synthetic parse-failure dict when stdout is not valid JSON. -/
def check_rule (env : Env) (trace : Trace) (rule extra : String) :
    (Bool × JVal) × Trace :=
  let r := run_tracker env trace (checkArgs rule extra)
  let result :=
    match json_loads r.1.2 with
    | some v => v
    | none => JVal.obj
        [("passed", JVal.bool false),
         ("reason", JVal.str ("Failed to parse tracker output"))]
  ((r.1.1 == 0, result), r.2)

/-- track: fire-and-forget tracking call; the result of run_tracker is
discarded, only the trace entry remains. -/
def track (env : Env) (trace : Trace) (track_type data : String) : Trace :=
  (run_tracker env trace (trackArgs track_type data)).2

/-- The pass bit check_rule computes for a given rule and extra argument
under a given tracker behaviour. -/
def checkPasses (env : Env) (rule extra : String) : Bool :=
  (subprocCatch (env (checkArgs rule extra))).1 == 0

/-- Verdict of one hook invocation. -/
inductive Verdict where
  | allow
  | warn (message : String)
  | block (reason : String)
deriving DecidableEq, Repr

/-- output_allow: the JSON envelope printed for an allow, with exit code 0. -/
def output_allow : JObj × Int :=
  ([("decision", JVal.str ("approve"))], 0)

/-- output_warn: approve with a warning message, exit code 0. -/
def output_warn (message : String) : JObj × Int :=
  ([("decision", JVal.str ("approve")), ("warning", JVal.str message)], 0)

/-- output_block: block with a reason, exit code 2. -/
def output_block (reason : String) : JObj × Int :=
  ([("decision", JVal.str ("block")), ("reason", JVal.str reason)], 2)

/-- Decision encoder: maps a verdict to the printed JSON object and the
process exit code, exactly as the output_* helpers in the source. -/
def encode_verdict : Verdict → JObj × Int
  | Verdict.allow => output_allow
  | Verdict.warn m => output_warn m
  | Verdict.block r => output_block r

/-- The unwrap step at the top of handle_pre_tool and handle_post_tool:
the input map is replaced by the value under its tool_input key exactly
when that key is present and its value is itself a dict. -/
def unwrap_tool_input (tool_input : JObj) : JObj :=
  match tool_input.lookup ("tool_input") with
  | some (JVal.obj inner) => inner
  | _ => tool_input

/-- Body of handle_pre_tool after the unwrap step.  Each output_* call in
the source exits the process; here each branch returns the corresponding
verdict together with the trace of tracker invocations made so far. -/
def handle_pre_tool_unwrapped (env : Env) (tool_name : String)
    (tool_input : JObj) : Verdict × Trace :=
  let trace : Trace := []
  if tool_name == "TodoWrite" then
    let c := check_rule env trace ("sequential_before_todo") ""
    if !c.1.1 then (Verdict.block MSG_SEQUENTIAL_BEFORE_TODO, c.2)
    else (Verdict.allow, c.2)
  else if FILE_EDIT_TOOLS.contains tool_name then
    let file_path := getStrField tool_input ("file_path")
    if !(file_path == "") && strContains file_path ("gh/cccc/.claude") then
      (Verdict.block MSG_BLOCK_CCCC_PROJECT_CONFIG, trace)
    else
      let c1 := check_rule env trace ("todo_before_edit") ""
      if !c1.1.1 then (Verdict.block MSG_TODO_BEFORE_EDIT, c1.2)
      else
        let c2 := check_rule env c1.2 ("tool_agents_before_edit") ""
        if !c2.1.1 then (Verdict.block MSG_TOOL_AGENTS_BEFORE_EDIT, c2.2)
        else
          let rep :=
            if !(file_path == "") then
              let c3 := check_rule env c2.2 ("file_already_edited") file_path
              (c3.1.1, c3.2)
            else (false, c2.2)
          if rep.1 then (Verdict.warn MSG_WARN_REPEATED_EDIT, rep.2)
          else if tool_name == "Edit" &&
              ((getStrField tool_input ("old_string")).length > 500 ||
               (getStrField tool_input ("new_string")).length > 500) then
            (Verdict.warn MSG_WARN_LARGE_EDIT, rep.2)
          else if tool_name == "Write" &&
              (getStrField tool_input ("content")).length > 2000 then
            (Verdict.warn MSG_WARN_LARGE_EDIT, rep.2)
          else (Verdict.allow, rep.2)
  else if tool_name == "Task" then
    let subagent_type := getStrField tool_input ("subagent_type")
    let trace :=
      if TOOL_AGENTS.contains subagent_type then
        track env trace ("tool_agent") subagent_type
      else if ADVISORS.contains subagent_type then
        track env trace ("advisor") subagent_type
      else trace
    let trace :=
      if subagent_type == "sequential-thinking-agent" then
        track env trace ("sequential_thinking") ""
      else trace
    (Verdict.allow, trace)
  else if strStartsWith tool_name ("mcp__sequential-thinking") then
    (Verdict.allow, track env trace ("sequential_thinking") "")
  else (Verdict.allow, trace)

/-- handle_pre_tool: unwrap the nested tool input once, then run the
pre-tool policy. -/
def handle_pre_tool (env : Env) (tool_name : String) (tool_input : JObj) :
    Verdict × Trace :=
  handle_pre_tool_unwrapped env tool_name (unwrap_tool_input tool_input)

/-- Body of handle_post_tool after the unwrap step: pure observation, only
tracking calls, never a gate.  The value of the handler is the trace of
tracking calls it issues. -/
def handle_post_tool_unwrapped (env : Env) (tool_name : String)
    (tool_input : JObj) : Trace :=
  let trace : Trace := []
  let trace :=
    if FILE_EDIT_TOOLS.contains tool_name then
      let file_path := getStrField tool_input ("file_path")
      if !(file_path == "") then track env trace ("file_edit") file_path
      else trace
    else trace
  let trace :=
    if tool_name == "TodoWrite" then track env trace ("todo_created") ""
    else trace
  trace

/-- handle_post_tool: unwrap the nested tool input once, then track. -/
def handle_post_tool (env : Env) (tool_name : String) (tool_input : JObj) :
    Trace :=
  handle_post_tool_unwrapped env tool_name (unwrap_tool_input tool_input)

/-- The review gate at the end of handle_stop: advisors_before_stop is
checked first, then reflection_before_stop; the first failing check
blocks with its message, otherwise allow. -/
def handle_stop_review (env : Env) (trace : Trace) : Verdict × Trace :=
  let c1 := check_rule env trace ("advisors_before_stop") ""
  if !c1.1.1 then (Verdict.block MSG_ADVISORS_BEFORE_STOP, c1.2)
  else
    let c2 := check_rule env c1.2 ("reflection_before_stop") ""
    if !c2.1.1 then (Verdict.block MSG_REFLECTION_BEFORE_STOP, c2.2)
    else (Verdict.allow, c2.2)

/-- handle_stop: fetch session state; on a JSON parse failure treat the
session as if files were edited; on an empty edited-files value allow
immediately; otherwise run the review gate.  A none verdict marks the one
uncaught-exception path: state that parses to valid non-dict JSON, on
which the Python call state.get raises an AttributeError that no handler
catches. -/
def handle_stop (env : Env) : Option Verdict × Trace :=
  let g := run_tracker env ([] : Trace) ["get"]
  let fe : Option JVal :=
    match json_loads g.1.2 with
    | some (JVal.obj kvs) => some ((kvs.lookup ("files_edited")).getD (JVal.arr []))
    | some _ => none
    | none => some (JVal.arr [JVal.str ("unknown")])
  match fe with
  | none => (none, g.2)
  | some files_edited =>
    if !(pyTruthy files_edited) then (some Verdict.allow, g.2)
    else
      let r := handle_stop_review env g.2
      (some r.1, r.2)

/-- handle_session_start: re-initialize tracker state and purge stale
state; the two tracker calls are fire-and-forget. -/
def handle_session_start (env : Env) : Trace :=
  let t1 := (run_tracker env ([] : Trace) ["init"]).2
  (run_tracker env t1 ["cleanup"]).2

/-
Session Identity Resolver (_get_session_gppid).
-/

/-- Result of reading /proc/(ppid)/stat: the file content, or any of the
caught read failures (FileNotFoundError / OSError). -/
inductive ProcStatRead where
  | ok (content : String)
  | readError

/-- Text after the last closing parenthesis of the character list, or none
when there is no closing parenthesis (content.rfind returning -1 followed
by the slice content[last_paren + 1 :]). -/
def afterLastParen : List Char → Option (List Char)
  | [] => none
  | c :: cs =>
    match afterLastParen cs with
    | some r => some r
    | none => if c == ')' then some cs else none

/-- Accumulator pass for whitespace splitting. -/
def splitWsAux : List Char → List Char → List (List Char)
  | [], acc => if acc.isEmpty then [] else [acc.reverse]
  | c :: cs, acc =>
    if c.isWhitespace then
      if acc.isEmpty then splitWsAux cs []
      else acc.reverse :: splitWsAux cs []
    else splitWsAux cs (c :: acc)

/-- Python str.split() with no separator: split on whitespace runs,
producing no empty fields. -/
def pyStrSplit (s : String) : List String :=
  (splitWsAux s.data []).map String.mk

/-- Digit run of a Python integer literal body: digits with single
grouping underscores allowed between digits. -/
def pyIntDigits : List Char → Bool
  | [] => true
  | '_' :: c :: cs => c.isDigit && pyIntDigits cs
  | '_' :: [] => false
  | c :: cs => c.isDigit && pyIntDigits cs

/-- Numeric value of a digit run, ignoring grouping underscores. -/
def digitsVal (cs : List Char) : Nat :=
  cs.foldl (fun a c => if c == '_' then a else a * 10 + (c.toNat - 48)) 0

/-- Python int(s) on a string: strip surrounding whitespace, allow one
sign, then a non-empty digit run (with grouping underscores); none models
the ValueError raised on any other shape. -/
def pyInt (s : String) : Option Int :=
  let t := ((s.data.dropWhile Char.isWhitespace).reverse.dropWhile
    Char.isWhitespace).reverse
  match t with
  | '-' :: rest =>
      if !rest.isEmpty && pyIntDigits rest then some (-(digitsVal rest : Int))
      else none
  | '+' :: rest =>
      if !rest.isEmpty && pyIntDigits rest then some ((digitsVal rest : Int))
      else none
  | rest =>
      if !rest.isEmpty && pyIntDigits rest then some ((digitsVal rest : Int))
      else none

/-- _get_session_gppid: from the parent's /proc stat content, take the text
after the last closing parenthesis (tolerating parentheses inside the
command name), split it on whitespace, and return the integer value of the
field at index 1; on a read failure, a missing parenthesis, a missing
field, or an unparseable field, fall back to the immediate parent pid. -/
def _get_session_gppid (ppid : Int) (stat : ProcStatRead) : Int :=
  match stat with
  | ProcStatRead.readError => ppid
  | ProcStatRead.ok content =>
    match afterLastParen content.data with
    | none => ppid
    | some rest =>
      match (pyStrSplit (String.mk rest)).get? 1 with
      | none => ppid
      | some f =>
        match pyInt f with
        | some n => n
        | none => ppid

/-- Modelled from the spec: the spec describes the resolved key as the
field at the position corresponding to process group ID in the status
record layout.  In the /proc stat record the fields after the command
name are state, ppid, pgrp, session, ...; the process group ID therefore
sits at index 2 after the command name.  This definition extracts that
field so the spec's description can be compared with the code. -/
def spec_pgrp_field (content : String) : Option String :=
  match afterLastParen content.data with
  | none => none
  | some rest => (pyStrSplit (String.mk rest)).get? 2

/-
CLI entry point (main).
-/

/-- What the process writes to standard output: a single JSON object, the
module docstring (usage text), or nothing but a traceback because an
uncaught exception terminated it. -/
inductive ProgOutput where
  | jsonOut (v : JObj)
  | docText
  | crashed

/-- read_stdin_json: the stdin text parsed as JSON, with an empty dict
substituted for empty or malformed input.  The declared return type in the
source is a dict; an input that parses to valid non-object JSON would be
returned as-is by the Python in violation of that annotation, and is
outside this model (no theorem below exercises it). -/
def read_stdin_json (stdin : JsonText) : JObj :=
  match json_loads stdin with
  | some (JVal.obj kvs) => kvs
  | _ => []

/-- Does the printed output have the shape of the structured error object,
a JSON object carrying an error key? -/
def isJsonErrorOutput : ProgOutput → Bool
  | ProgOutput.jsonOut kvs => (kvs.lookup ("error")).isSome
  | _ => false

/-- main: dispatch on the command-line arguments exactly as the source
does, producing the printed output, the process exit code, and the trace
of tracker invocations. -/
def main_run (env : Env) (argv : List String) (stdin : JsonText) :
    ProgOutput × Int × Trace :=
  if argv.length < 2 then (ProgOutput.docText, 1, [])
  else
    let cmd := argv.getD 1 ""
    if cmd == "--help" || cmd == "-h" || cmd == "help" then
      (ProgOutput.docText, 0, [])
    else
      let tool_input := read_stdin_json stdin
      if cmd == "pre-tool" then
        if argv.length < 3 then
          (ProgOutput.jsonOut
            [("error", JVal.str ("pre-tool requires tool_name argument"))], 1, [])
        else
          let tool_name := argv.getD 2 ""
          let r := handle_pre_tool env tool_name tool_input
          let e := encode_verdict r.1
          (ProgOutput.jsonOut e.1, e.2, r.2)
      else if cmd == "post-tool" then
        if argv.length < 3 then
          (ProgOutput.jsonOut
            [("error", JVal.str ("post-tool requires tool_name argument"))], 1, [])
        else
          let tool_name := argv.getD 2 ""
          let tr := handle_post_tool env tool_name tool_input
          (ProgOutput.jsonOut [("status", JVal.str ("tracked"))], 0, tr)
      else if cmd == "stop" then
        let r := handle_stop env
        match r.1 with
        | some v =>
          let e := encode_verdict v
          (ProgOutput.jsonOut e.1, e.2, r.2)
        | none => (ProgOutput.crashed, 1, r.2)
      else if cmd == "session-start" then
        let tr := handle_session_start env
        (ProgOutput.jsonOut [("status", JVal.str ("initialized"))], 0, tr)
      else
        (ProgOutput.jsonOut
          [("error", JVal.str ("Unknown command: " ++ cmd))], 1, [])

/-
Concrete tracker behaviours used to instantiate the theorems.
-/

/-- Tracker behaviour: every call completes with exit code 0 and an empty
JSON object on stdout. -/
def envPassAll : Env := fun _ =>
  SubprocOutcome.completed 0 (JsonText.valid (JVal.obj []))

/-- Tracker behaviour: every call completes with exit code 1. -/
def envFailAll : Env := fun _ =>
  SubprocOutcome.completed 1 (JsonText.valid (JVal.obj []))

/-- Tracker behaviour: only the todo_before_edit check fails. -/
def envTodoFails : Env := fun args =>
  if args == ["check", "todo_before_edit"] then
    SubprocOutcome.completed 1 (JsonText.valid (JVal.obj []))
  else SubprocOutcome.completed 0 (JsonText.valid (JVal.obj []))

/-- Tracker behaviour: only the tool_agents_before_edit check fails. -/
def envAgentsFails : Env := fun args =>
  if args == ["check", "tool_agents_before_edit"] then
    SubprocOutcome.completed 1 (JsonText.valid (JVal.obj []))
  else SubprocOutcome.completed 0 (JsonText.valid (JVal.obj []))

/-- Tracker behaviour: every check passes except file_already_edited, so
the repeated-edit advisory never triggers. -/
def envNotEdited : Env := fun args =>
  if args.getD 0 "" == "check" && args.getD 1 "" == "file_already_edited" then
    SubprocOutcome.completed 1 (JsonText.valid (JVal.obj []))
  else SubprocOutcome.completed 0 (JsonText.valid (JVal.obj []))

/-- Tracker behaviour: the get operation prints text that is not valid
JSON; every check fails. -/
def envGetInvalid : Env := fun args =>
  if args == ["get"] then SubprocOutcome.completed 0 JsonText.invalid
  else SubprocOutcome.completed 1 (JsonText.valid (JVal.obj []))

/-- Tracker behaviour: the get operation times out; every check passes. -/
def envGetTimeout : Env := fun args =>
  if args == ["get"] then SubprocOutcome.timeoutExpired
  else SubprocOutcome.completed 0 (JsonText.valid (JVal.obj []))

/-- Tracker behaviour: the get operation reports one edited file; every
check passes. -/
def envOneFileEdited : Env := fun args =>
  if args == ["get"] then
    SubprocOutcome.completed 0 (JsonText.valid
      (JVal.obj [("files_edited", JVal.arr [JVal.str ("a.py")])]))
  else SubprocOutcome.completed 0 (JsonText.valid (JVal.obj []))

/-- Tracker behaviour: the get operation reports an explicitly empty
edited-files collection; every check fails. -/
def envEmptyFiles : Env := fun args =>
  if args == ["get"] then
    SubprocOutcome.completed 0 (JsonText.valid
      (JVal.obj [("files_edited", JVal.arr [])]))
  else SubprocOutcome.completed 1 (JsonText.valid (JVal.obj []))

/-- Tracker behaviour: every call times out. -/
def envTimeout : Env := fun _ => SubprocOutcome.timeoutExpired

/-- Tracker behaviour: every call raises. -/
def envRaised : Env := fun _ => SubprocOutcome.raised ("spawn failure")

/-- A 501-character string, above the targeted-replacement warning
threshold. -/
def bigString : String := String.mk (List.replicate 501 'a')

/-- A 2001-character string, above the whole-file write warning
threshold. -/
def bigContent : String := String.mk (List.replicate 2001 'b')

/-
Helper lemmas shared by the claim theorems.
-/

/-- The pass bit returned by check_rule is the exit-code test applied to
the tracker behaviour at the check argument list. -/
theorem check_rule_fst (env : Env) (tr : Trace) (rule extra : String) :
    (check_rule env tr rule extra).1.1 = checkPasses env rule extra := rfl

/-- check_rule appends exactly its own invocation to the trace. -/
theorem check_rule_snd (env : Env) (tr : Trace) (rule extra : String) :
    (check_rule env tr rule extra).2 = tr ++ [checkArgs rule extra] := rfl

/-- Membership in the file-edit tool set, unfolded to the three tools. -/
theorem file_edit_tools_cases (tool_name : String)
    (h : FILE_EDIT_TOOLS.contains tool_name = true) :
    tool_name = "Edit" ∨ tool_name = "Write" ∨ tool_name = "NotebookEdit" := by
  have hm : tool_name ∈ FILE_EDIT_TOOLS := List.mem_of_elem_eq_true h
  simpa [FILE_EDIT_TOOLS] using hm

/-
Claim theorems.
-/

/-- C1: for every pre-tool invocation with a file-edit tool whose
file_path does not contain the forbidden project-config marker, the two
blocking rules are ordered gates: when todo_before_edit fails the verdict
is the to-do block and tool_agents_before_edit is not even queried
(whatever it would return); when todo_before_edit passes and
tool_agents_before_edit fails, the verdict is the tool-agents block, the
two rules having been queried in that order. -/
theorem pre_tool_ordered_gates (env : Env) (tool_name : String)
    (tool_input : JObj)
    (hTool : FILE_EDIT_TOOLS.contains tool_name = true)
    (hMark : strContains
      (getStrField (unwrap_tool_input tool_input) ("file_path"))
      ("gh/cccc/.claude") = false) :
    (checkPasses env ("todo_before_edit") "" = false →
      handle_pre_tool env tool_name tool_input =
        (Verdict.block MSG_TODO_BEFORE_EDIT, [["check", "todo_before_edit"]])) ∧
    (checkPasses env ("todo_before_edit") "" = true →
      checkPasses env ("tool_agents_before_edit") "" = false →
      handle_pre_tool env tool_name tool_input =
        (Verdict.block MSG_TOOL_AGENTS_BEFORE_EDIT,
          [["check", "todo_before_edit"],
           ["check", "tool_agents_before_edit"]])) := by
  obtain h3 := file_edit_tools_cases tool_name hTool
  constructor
  · intro hTodo
    rcases h3 with h | h | h <;> subst h <;>
      simp [handle_pre_tool, handle_pre_tool_unwrapped, check_rule_fst,
        check_rule_snd, hMark, hTodo, checkArgs, FILE_EDIT_TOOLS]
  · intro hTodo hAgents
    rcases h3 with h | h | h <;> subst h <;>
      simp [handle_pre_tool, handle_pre_tool_unwrapped, check_rule_fst,
        check_rule_snd, hMark, hTodo, hAgents, checkArgs, FILE_EDIT_TOOLS]

/-- Witness for pre_tool_ordered_gates at concrete tracker behaviours and
an empty tool input. -/
theorem pre_tool_ordered_gates_witness :
    handle_pre_tool envTodoFails ("Edit") [] =
      (Verdict.block MSG_TODO_BEFORE_EDIT, [["check", "todo_before_edit"]]) ∧
    handle_pre_tool envAgentsFails ("Edit") [] =
      (Verdict.block MSG_TOOL_AGENTS_BEFORE_EDIT,
        [["check", "todo_before_edit"],
         ["check", "tool_agents_before_edit"]]) :=
  ⟨(pre_tool_ordered_gates envTodoFails ("Edit") [] (by decide)
      (by decide)).1 (by decide),
   (pre_tool_ordered_gates envAgentsFails ("Edit") [] (by decide)
      (by decide)).2 (by decide) (by decide)⟩

/-- C2: a file-edit tool invocation whose non-empty file_path contains the
forbidden project-config marker blocks immediately with the
project-config message, for every tracker behaviour (hence regardless of
prior session state), and the trace is empty: no rule query of any kind
is issued. -/
theorem cccc_config_block_first (env : Env) (tool_name : String)
    (tool_input : JObj) (fp : String)
    (hTool : FILE_EDIT_TOOLS.contains tool_name = true)
    (hfp : (unwrap_tool_input tool_input).lookup ("file_path") =
      some (JVal.str fp))
    (hne : fp ≠ "")
    (hMark : strContains fp ("gh/cccc/.claude") = true) :
    handle_pre_tool env tool_name tool_input =
      (Verdict.block MSG_BLOCK_CCCC_PROJECT_CONFIG, []) := by
  obtain h3 := file_edit_tools_cases tool_name hTool
  have hg : getStrField (unwrap_tool_input tool_input) ("file_path") = fp := by
    simp [getStrField, hfp]
  rcases h3 with h | h | h <;> subst h <;>
    simp [handle_pre_tool, handle_pre_tool_unwrapped, hg, hMark, hne,
      FILE_EDIT_TOOLS]

/-- Witness for cccc_config_block_first on a concrete path under the
forbidden location. -/
theorem cccc_config_block_first_witness :
    handle_pre_tool envPassAll ("Write")
      [("file_path", JVal.str ("/u/gh/cccc/.claude/settings.json"))] =
      (Verdict.block MSG_BLOCK_CCCC_PROJECT_CONFIG, []) :=
  cccc_config_block_first envPassAll ("Write")
    [("file_path", JVal.str ("/u/gh/cccc/.claude/settings.json"))]
    ("/u/gh/cccc/.claude/settings.json")
    (by decide) rfl (by decide) (by decide)

/-- C4: once the blocking gates have passed, the repeated-edit check and
the size heuristic never block: the verdict is always encoded as decision
approve with exit code 0; and when the repeated-edit advisory triggers,
its message alone is returned whatever the size conditions would say
(no accumulation: the single returned message is that of the advisory
evaluated last, later advisories never being evaluated). -/
theorem pre_tool_advisories_nonblocking (env : Env) (tool_name : String)
    (tool_input : JObj)
    (hTool : FILE_EDIT_TOOLS.contains tool_name = true)
    (hMark : strContains
      (getStrField (unwrap_tool_input tool_input) ("file_path"))
      ("gh/cccc/.claude") = false)
    (hTodo : checkPasses env ("todo_before_edit") "" = true)
    (hAgents : checkPasses env ("tool_agents_before_edit") "" = true) :
    ((encode_verdict (handle_pre_tool env tool_name tool_input).1).2 = 0 ∧
      ((encode_verdict (handle_pre_tool env tool_name tool_input).1).1.lookup
        ("decision")) = some (JVal.str ("approve"))) ∧
    (getStrField (unwrap_tool_input tool_input) ("file_path") ≠ "" →
      checkPasses env ("file_already_edited")
        (getStrField (unwrap_tool_input tool_input) ("file_path")) = true →
      (handle_pre_tool env tool_name tool_input).1 =
        Verdict.warn MSG_WARN_REPEATED_EDIT) := by
  obtain h3 := file_edit_tools_cases tool_name hTool
  constructor
  · rcases h3 with h | h | h <;> subst h <;>
      by_cases hfp : getStrField (unwrap_tool_input tool_input)
        ("file_path") = "" <;>
      by_cases hrep : checkPasses env ("file_already_edited")
        (getStrField (unwrap_tool_input tool_input) ("file_path")) = true <;>
      by_cases hOld : (getStrField (unwrap_tool_input tool_input)
        ("old_string")).length > 500 <;>
      by_cases hNew : (getStrField (unwrap_tool_input tool_input)
        ("new_string")).length > 500 <;>
      by_cases hCon : (getStrField (unwrap_tool_input tool_input)
        ("content")).length > 2000 <;>
      simp [handle_pre_tool, handle_pre_tool_unwrapped, check_rule_fst,
        check_rule_snd, hMark, hTodo, hAgents, FILE_EDIT_TOOLS, hfp, hrep,
        hOld, hNew, hCon, encode_verdict, output_warn, output_allow,
        List.lookup]
  · intro hfp hrep
    rcases h3 with h | h | h <;> subst h <;>
      simp [handle_pre_tool, handle_pre_tool_unwrapped, check_rule_fst,
        check_rule_snd, hMark, hTodo, hAgents, FILE_EDIT_TOOLS, hfp, hrep]

/-- Witness for pre_tool_advisories_nonblocking: with every rule passing,
a repeat-edited file gets the repeated-edit warning, encoded as approve
with exit code 0. -/
theorem pre_tool_advisories_nonblocking_witness :
    (encode_verdict (handle_pre_tool envPassAll ("Edit")
      [("file_path", JVal.str ("/tmp/a.py"))]).1).2 = 0 ∧
    (handle_pre_tool envPassAll ("Edit")
      [("file_path", JVal.str ("/tmp/a.py"))]).1 =
      Verdict.warn MSG_WARN_REPEATED_EDIT :=
  ⟨(pre_tool_advisories_nonblocking envPassAll ("Edit")
      [("file_path", JVal.str ("/tmp/a.py"))] (by decide) (by decide)
      (by decide) (by decide)).1.1,
   (pre_tool_advisories_nonblocking envPassAll ("Edit")
      [("file_path", JVal.str ("/tmp/a.py"))] (by decide) (by decide)
      (by decide) (by decide)).2 (by decide) (by decide)⟩

/-- C5: with the blocking gates passing and the repeated-edit advisory not
triggering, an Edit with both old and new text at most 500 characters is
allowed with no warning; an Edit with either text longer than 500
characters gets the large-edit warning; a Write whose content exceeds
2000 characters gets the large-edit warning. -/
theorem size_heuristic_thresholds (env : Env) (tool_input : JObj)
    (hMark : strContains
      (getStrField (unwrap_tool_input tool_input) ("file_path"))
      ("gh/cccc/.claude") = false)
    (hTodo : checkPasses env ("todo_before_edit") "" = true)
    (hAgents : checkPasses env ("tool_agents_before_edit") "" = true)
    (hNoRep : getStrField (unwrap_tool_input tool_input) ("file_path") = "" ∨
      checkPasses env ("file_already_edited")
        (getStrField (unwrap_tool_input tool_input) ("file_path")) = false) :
    ((getStrField (unwrap_tool_input tool_input) ("old_string")).length ≤ 500 →
      (getStrField (unwrap_tool_input tool_input) ("new_string")).length ≤ 500 →
      (handle_pre_tool env ("Edit") tool_input).1 = Verdict.allow) ∧
    ((getStrField (unwrap_tool_input tool_input) ("old_string")).length > 500 ∨
      (getStrField (unwrap_tool_input tool_input) ("new_string")).length > 500 →
      (handle_pre_tool env ("Edit") tool_input).1 =
        Verdict.warn MSG_WARN_LARGE_EDIT) ∧
    ((getStrField (unwrap_tool_input tool_input) ("content")).length > 2000 →
      (handle_pre_tool env ("Write") tool_input).1 =
        Verdict.warn MSG_WARN_LARGE_EDIT) := by
  refine ⟨fun hOld hNew => ?_, fun hBig => ?_, fun hCon => ?_⟩
  · have hOld' : ¬ (getStrField (unwrap_tool_input tool_input)
      ("old_string")).length > 500 := Nat.not_lt.mpr hOld
    have hNew' : ¬ (getStrField (unwrap_tool_input tool_input)
      ("new_string")).length > 500 := Nat.not_lt.mpr hNew
    rcases hNoRep with h | h <;>
      simp [handle_pre_tool, handle_pre_tool_unwrapped, check_rule_fst,
        check_rule_snd, hMark, hTodo, hAgents, FILE_EDIT_TOOLS, h,
        hOld', hNew', apply_ite]
  · rcases hNoRep with h | h <;> rcases hBig with hB | hB <;>
      simp [handle_pre_tool, handle_pre_tool_unwrapped, check_rule_fst,
        check_rule_snd, hMark, hTodo, hAgents, FILE_EDIT_TOOLS, h, hB,
        apply_ite]
  · rcases hNoRep with h | h <;>
      simp [handle_pre_tool, handle_pre_tool_unwrapped, check_rule_fst,
        check_rule_snd, hMark, hTodo, hAgents, FILE_EDIT_TOOLS, h,
        hCon, apply_ite]

/-- Witness for size_heuristic_thresholds: an under-threshold Edit is
allowed, an Edit with a 501-character old text and a Write with a
2001-character content are warned. -/
theorem size_heuristic_thresholds_witness :
    (handle_pre_tool envNotEdited ("Edit")
      [("file_path", JVal.str ("/tmp/a.py"))]).1 = Verdict.allow ∧
    (handle_pre_tool envNotEdited ("Edit")
      [("old_string", JVal.str bigString)]).1 =
      Verdict.warn MSG_WARN_LARGE_EDIT ∧
    (handle_pre_tool envNotEdited ("Write")
      [("content", JVal.str bigContent)]).1 =
      Verdict.warn MSG_WARN_LARGE_EDIT :=
  ⟨(size_heuristic_thresholds envNotEdited
      [("file_path", JVal.str ("/tmp/a.py"))] (by decide) (by decide)
      (by decide) (Or.inr (by decide))).1 (by decide) (by decide),
   (size_heuristic_thresholds envNotEdited
      [("old_string", JVal.str bigString)] (by decide) (by decide)
      (by decide) (Or.inl (by decide))).2.1
      (Or.inl (by
        show (List.replicate 501 'a').length > 500
        rw [List.length_replicate]
        omega)),
   (size_heuristic_thresholds envNotEdited
      [("content", JVal.str bigContent)] (by decide) (by decide)
      (by decide) (Or.inl (by decide))).2.2
      (by
        show (List.replicate 2001 'b').length > 2000
        rw [List.length_replicate]
        omega)⟩

/-- The three outcomes of the stop review gate, as a function of the two
rule checks: advisors_before_stop is queried first, and its failure
prevents the reflection query. -/
theorem handle_stop_review_table (env : Env) (tr : Trace) :
    (checkPasses env ("advisors_before_stop") "" = false →
      handle_stop_review env tr =
        (Verdict.block MSG_ADVISORS_BEFORE_STOP,
         tr ++ [["check", "advisors_before_stop"]])) ∧
    (checkPasses env ("advisors_before_stop") "" = true →
      checkPasses env ("reflection_before_stop") "" = false →
      handle_stop_review env tr =
        (Verdict.block MSG_REFLECTION_BEFORE_STOP,
         tr ++ [["check", "advisors_before_stop"],
                ["check", "reflection_before_stop"]])) ∧
    (checkPasses env ("advisors_before_stop") "" = true →
      checkPasses env ("reflection_before_stop") "" = true →
      handle_stop_review env tr =
        (Verdict.allow,
         tr ++ [["check", "advisors_before_stop"],
                ["check", "reflection_before_stop"]])) := by
  refine ⟨fun h1 => ?_, fun h1 h2 => ?_, fun h1 h2 => ?_⟩
  · simp [handle_stop_review, check_rule_fst, check_rule_snd, h1, checkArgs]
  · simp [handle_stop_review, check_rule_fst, check_rule_snd, h1, h2,
      checkArgs]
  · simp [handle_stop_review, check_rule_fst, check_rule_snd, h1, h2,
      checkArgs]

/-- C3: the stop contract: session state that does not parse as JSON is
treated as if files were edited, so the review gate runs; an empty
edited-files collection yields Allow with neither review rule queried;
a non-empty collection queries advisors_before_stop strictly before
reflection_before_stop, the first failing rule blocks with its message,
and both passing yields Allow. -/
theorem stop_contract (env : Env) :
    ((json_loads (subprocCatch (env ["get"])).2 = none ∨
      (∃ kvs fs, json_loads (subprocCatch (env ["get"])).2 =
          some (JVal.obj kvs) ∧
        kvs.lookup ("files_edited") = some (JVal.arr fs) ∧ fs ≠ [])) →
      (checkPasses env ("advisors_before_stop") "" = false →
        handle_stop env =
          (some (Verdict.block MSG_ADVISORS_BEFORE_STOP),
           [["get"], ["check", "advisors_before_stop"]])) ∧
      (checkPasses env ("advisors_before_stop") "" = true →
        checkPasses env ("reflection_before_stop") "" = false →
        handle_stop env =
          (some (Verdict.block MSG_REFLECTION_BEFORE_STOP),
           [["get"], ["check", "advisors_before_stop"],
            ["check", "reflection_before_stop"]])) ∧
      (checkPasses env ("advisors_before_stop") "" = true →
        checkPasses env ("reflection_before_stop") "" = true →
        handle_stop env =
          (some Verdict.allow,
           [["get"], ["check", "advisors_before_stop"],
            ["check", "reflection_before_stop"]]))) ∧
    (∀ kvs, json_loads (subprocCatch (env ["get"])).2 = some (JVal.obj kvs) →
      kvs.lookup ("files_edited") = some (JVal.arr []) →
      handle_stop env = (some Verdict.allow, [["get"]])) := by
  constructor
  · intro hcase
    have hs : handle_stop env =
        (some (handle_stop_review env [["get"]]).1,
         (handle_stop_review env [["get"]]).2) := by
      rcases hcase with hGet | ⟨kvs, fs, hGet, hLook, hne⟩
      · simp [handle_stop, run_tracker, hGet, pyTruthy]
      · rcases fs with _ | ⟨f, fs⟩
        · exact absurd rfl hne
        · simp [handle_stop, run_tracker, hGet, hLook, pyTruthy]
    obtain ⟨t1, t2, t3⟩ := handle_stop_review_table env [["get"]]
    refine ⟨fun hAdv => ?_, fun hAdv hRef => ?_, fun hAdv hRef => ?_⟩
    · rw [hs, t1 hAdv]
      rfl
    · rw [hs, t2 hAdv hRef]
      rfl
    · rw [hs, t3 hAdv hRef]
      rfl
  · intro kvs hGet hLook
    simp [handle_stop, run_tracker, hGet, hLook, pyTruthy]

/-- Witness for stop_contract: an unparseable get output with failing
checks blocks on the advisors rule without querying reflection, and an
explicitly empty edited-files collection allows with no review query. -/
theorem stop_contract_witness :
    handle_stop envGetInvalid =
      (some (Verdict.block MSG_ADVISORS_BEFORE_STOP),
       [["get"], ["check", "advisors_before_stop"]]) ∧
    handle_stop envEmptyFiles = (some Verdict.allow, [["get"]]) :=
  ⟨((stop_contract envGetInvalid).1 (Or.inl rfl)).1 (by decide),
   (stop_contract envEmptyFiles).2 [("files_edited", JVal.arr [])] rfl rfl⟩

/-- C10: session state that parses to a JSON object lacking the
files_edited key defaults to an empty collection, so the stop allows and
neither review rule is queried; in particular a get timeout produces the
synthetic error object, which is valid JSON without the key, and also
allows.  The fail-closed treatment applies only to output that is not
valid JSON. -/
theorem stop_missing_key_allows (env : Env) :
    (∀ kvs, json_loads (subprocCatch (env ["get"])).2 = some (JVal.obj kvs) →
      kvs.lookup ("files_edited") = none →
      handle_stop env = (some Verdict.allow, [["get"]])) ∧
    (env ["get"] = SubprocOutcome.timeoutExpired →
      handle_stop env = (some Verdict.allow, [["get"]])) := by
  constructor
  · intro kvs hGet hLook
    simp [handle_stop, run_tracker, hGet, hLook, pyTruthy]
  · intro hTO
    simp [handle_stop, run_tracker, hTO, subprocCatch, json_loads, pyTruthy,
      List.lookup, Option.getD]

/-- Witness for stop_missing_key_allows: a get returning an empty object
and a get that times out both allow without review queries. -/
theorem stop_missing_key_allows_witness :
    handle_stop envPassAll = (some Verdict.allow, [["get"]]) ∧
    handle_stop envGetTimeout = (some Verdict.allow, [["get"]]) :=
  ⟨(stop_missing_key_allows envPassAll).1 [] rfl rfl,
   (stop_missing_key_allows envGetTimeout).2 rfl⟩

/-- C7: check_rule is fail-closed and track is fail-open: the pass bit is
exactly the exit-code-zero test on the subprocess, a timeout or a raised
exception is mapped by run_tracker to exit code 1 and therefore reports
failure for every rule, and track returns normally for every subprocess
outcome, recording exactly its own invocation — no exception escapes
either path. -/
theorem tracker_failure_semantics (env : Env) (rule extra ty data : String) :
    (∀ c out, env (checkArgs rule extra) = SubprocOutcome.completed c out →
      (check_rule env [] rule extra).1.1 = (c == 0)) ∧
    (env (checkArgs rule extra) = SubprocOutcome.timeoutExpired →
      (check_rule env [] rule extra).1.1 = false) ∧
    (∀ e, env (checkArgs rule extra) = SubprocOutcome.raised e →
      (check_rule env [] rule extra).1.1 = false) ∧
    track env [] ty data = [trackArgs ty data] := by
  refine ⟨fun c out h => ?_, fun h => ?_, fun e h => ?_, rfl⟩ <;>
    simp [check_rule_fst, checkPasses, h, subprocCatch]

/-- Witness for tracker_failure_semantics: a timing-out and a raising
tracker both fail the check, and track still returns its call record
under a timing-out tracker. -/
theorem tracker_failure_semantics_witness :
    (check_rule envTimeout [] ("advisors_before_stop") "").1.1 = false ∧
    (check_rule envRaised [] ("todo_before_edit") "").1.1 = false ∧
    track envTimeout [] ("file_edit") ("a.py") =
      [["track", "file_edit", "a.py"]] :=
  ⟨(tracker_failure_semantics envTimeout ("advisors_before_stop") "" ("x")
      ("")).2.1 rfl,
   (tracker_failure_semantics envRaised ("todo_before_edit") "" ("x")
      ("")).2.2.1 ("spawn failure") rfl,
   (tracker_failure_semantics envTimeout ("x") "" ("file_edit")
      ("a.py")).2.2.2.trans rfl⟩

/-- A character list without a closing parenthesis has no text after its
last closing parenthesis. -/
theorem afterLastParen_of_not_mem (cs : List Char) (h : ')' ∉ cs) :
    afterLastParen cs = none := by
  induction cs with
  | nil => rfl
  | cons c cs ih =>
    rw [List.mem_cons, not_or] at h
    obtain ⟨hc, hcs⟩ := h
    simp [afterLastParen, ih hcs, Ne.symm hc]

/-- afterLastParen ignores everything before the last closing parenthesis:
any prefix followed by one closing parenthesis and a parenthesis-free
tail selects exactly the tail. -/
theorem afterLastParen_append (xs ys : List Char) (h : ')' ∉ ys) :
    afterLastParen (xs ++ ')' :: ys) = some ys := by
  induction xs with
  | nil => simp [afterLastParen, afterLastParen_of_not_mem ys h]
  | cons x xs ih => simp [afterLastParen, ih]

/-- C6 counterexample: on this status record the field at the process
group ID position of the status record layout (field 5, index 2 after
the command name) is 88, but the resolver returns 77, the value at the
parent process ID position (index 1): the claim that the resolver
returns the process-group-ID field is false on this input. -/
theorem gppid_not_pgrp_counterexample :
    _get_session_gppid 555 (ProcStatRead.ok ("1234 (cmd) S 77 88 99 100")) =
      77 ∧
    spec_pgrp_field ("1234 (cmd) S 77 88 99 100") = some ("88") ∧
    pyInt ("88") = some 88 ∧ (77 : Int) ≠ 88 :=
  ⟨rfl, rfl, rfl, by decide⟩

/-- C6 (amended): the resolver takes the text after the last closing
parenthesis of the parent status record — so a command name containing a
literal close-parenthesis cannot misalign the fields — splits it on
whitespace, and returns the integer value of the field at index 1, which
is the position of the parent process ID field of the status record
(the grandparent pid), not the process group ID position; on a read
failure, an absent closing parenthesis, a missing field, or a field that
does not parse as an integer it returns the immediate parent process id,
and it never raises (it is a total function). -/
theorem gppid_resolver_contract (ppid n : Int) (pre tail f content : String) :
    (_get_session_gppid ppid ProcStatRead.readError = ppid) ∧
    (')' ∉ tail.data →
      (pyStrSplit tail).get? 1 = some f →
      pyInt f = some n →
      _get_session_gppid ppid (ProcStatRead.ok (pre ++ (")") ++ tail)) = n) ∧
    (')' ∉ tail.data →
      (pyStrSplit tail).get? 1 = some f →
      pyInt f = none →
      _get_session_gppid ppid (ProcStatRead.ok (pre ++ (")") ++ tail)) =
        ppid) ∧
    (')' ∉ tail.data →
      (pyStrSplit tail).get? 1 = none →
      _get_session_gppid ppid (ProcStatRead.ok (pre ++ (")") ++ tail)) =
        ppid) ∧
    (')' ∉ content.data →
      _get_session_gppid ppid (ProcStatRead.ok content) = ppid) := by
  have hmk : String.mk tail.data = tail := rfl
  have hd : (pre ++ (")") ++ tail).data = pre.data ++ ')' :: tail.data := by
    simp
  refine ⟨rfl, fun hp hsplit hint => ?_, fun hp hsplit hint => ?_,
    fun hp hsplit => ?_, fun hp => ?_⟩
  · rw [List.get?_eq_getElem?] at hsplit
    simp [_get_session_gppid, hd, afterLastParen_append pre.data tail.data hp,
      hmk, hsplit, hint]
  · rw [List.get?_eq_getElem?] at hsplit
    simp [_get_session_gppid, hd, afterLastParen_append pre.data tail.data hp,
      hmk, hsplit, hint]
  · rw [List.get?_eq_getElem?] at hsplit
    simp [_get_session_gppid, hd, afterLastParen_append pre.data tail.data hp,
      hmk, hsplit]
  · simp [_get_session_gppid, afterLastParen_of_not_mem content.data hp]

/-- Witness for gppid_resolver_contract: a command name containing a
close-parenthesis still yields the first numeric field after the state
character, and a read failure falls back to the parent pid. -/
theorem gppid_resolver_contract_witness :
    _get_session_gppid 555
      (ProcStatRead.ok (("1234 (a)b") ++ (")") ++ (" S 77 88 99"))) = 77 ∧
    _get_session_gppid 555 ProcStatRead.readError = 555 :=
  ⟨(gppid_resolver_contract 555 77 ("1234 (a)b") (" S 77 88 99") ("77")
      ("x")).2.1 (by decide) rfl rfl,
   (gppid_resolver_contract 555 0 ("") ("") ("") ("")).1⟩

/-- C9: the handlers unwrap the stdin input map exactly one level: the
input map is replaced by the value under its tool_input key only when
that key is present with a dict value; when the key is absent, or
present with a non-dict value, the outer map is used unchanged; a doubly
wrapped input is unwrapped one level only, the inner tool_input key
surviving; and both the pre-tool and the post-tool handler read every
field through exactly this one unwrap. -/
theorem unwrap_one_level (env : Env) (tool_name : String) :
    (∀ outer inner, outer.lookup ("tool_input") = some (JVal.obj inner) →
      unwrap_tool_input outer = inner) ∧
    (∀ outer, outer.lookup ("tool_input") = none →
      unwrap_tool_input outer = outer) ∧
    (∀ outer v, outer.lookup ("tool_input") = some v →
      (∀ kvs, v ≠ JVal.obj kvs) → unwrap_tool_input outer = outer) ∧
    (∀ inner,
      unwrap_tool_input
        [("tool_input", JVal.obj [("tool_input", JVal.obj inner)])] =
        [("tool_input", JVal.obj inner)]) ∧
    (∀ tool_input, handle_pre_tool env tool_name tool_input =
      handle_pre_tool_unwrapped env tool_name (unwrap_tool_input tool_input)) ∧
    (∀ tool_input, handle_post_tool env tool_name tool_input =
      handle_post_tool_unwrapped env tool_name
        (unwrap_tool_input tool_input)) := by
  refine ⟨fun outer inner h => ?_, fun outer h => ?_,
    fun outer v h hno => ?_, fun inner => rfl, fun ti => rfl, fun ti => rfl⟩
  · simp [unwrap_tool_input, h]
  · simp [unwrap_tool_input, h]
  · cases v <;> first
      | exact absurd rfl (hno _)
      | simp [unwrap_tool_input, h]

/-- Witness for unwrap_one_level: a doubly wrapped input keeps its inner
tool_input key, and an input without the key is unchanged. -/
theorem unwrap_one_level_witness :
    unwrap_tool_input
      [("tool_input", JVal.obj
        [("tool_input", JVal.obj [("file_path", JVal.str ("a"))])])] =
      [("tool_input", JVal.obj [("file_path", JVal.str ("a"))])] ∧
    unwrap_tool_input [("file_path", JVal.str ("b"))] =
      [("file_path", JVal.str ("b"))] :=
  ⟨(unwrap_one_level envPassAll ("Edit")).2.2.2.1
      [("file_path", JVal.str ("a"))],
   (unwrap_one_level envPassAll ("Edit")).2.1
      [("file_path", JVal.str ("b"))] rfl⟩

/-- C8 counterexample: invoking the program with no event argument at all
is a malformed invocation (a missing required argument), but the program
prints the usage docstring, not a JSON object with an error key, while
exiting with code 1: the claim that every malformed invocation writes a
JSON error object is false on this input. -/
theorem missing_event_prints_usage :
    main_run envPassAll [("hook-enforcer.py")] JsonText.invalid =
      (ProgOutput.docText, 1, []) ∧
    isJsonErrorOutput
      (main_run envPassAll [("hook-enforcer.py")] JsonText.invalid).1 =
      false :=
  ⟨rfl, rfl⟩

/-- C8 (amended): a pre-tool or post-tool invocation without a tool_name
argument, and an invocation with an unknown event name, each write a
single JSON object with an error key and exit with code 1; an invocation
with no event argument at all instead prints the usage docstring and
exits with code 1. -/
theorem malformed_invocation_contract (env : Env) (stdin : JsonText)
    (prog cmd : String) (rest : List String) :
    (main_run env [prog] stdin = (ProgOutput.docText, 1, [])) ∧
    (main_run env [prog, ("pre-tool")] stdin =
      (ProgOutput.jsonOut
        [("error", JVal.str ("pre-tool requires tool_name argument"))],
       1, [])) ∧
    (main_run env [prog, ("post-tool")] stdin =
      (ProgOutput.jsonOut
        [("error", JVal.str ("post-tool requires tool_name argument"))],
       1, [])) ∧
    (cmd ≠ "--help" → cmd ≠ "-h" → cmd ≠ "help" → cmd ≠ "pre-tool" →
      cmd ≠ "post-tool" → cmd ≠ "stop" → cmd ≠ "session-start" →
      main_run env (prog :: cmd :: rest) stdin =
        (ProgOutput.jsonOut
          [("error", JVal.str (("Unknown command: ") ++ cmd))], 1, [])) := by
  refine ⟨?_, ?_, ?_, fun h1 h2 h3 h4 h5 h6 h7 => ?_⟩
  · simp [main_run]
  · simp [main_run]
  · simp [main_run]
  · have hlen : ¬ (prog :: cmd :: rest).length < 2 := by
      simp only [List.length_cons]
      omega
    simp [main_run, hlen, h1, h2, h3, h4, h5, h6, h7]

/-- Witness for malformed_invocation_contract at a concrete unknown
command. -/
theorem malformed_invocation_contract_witness :
    main_run envPassAll [("hook-enforcer.py"), ("frobnicate")]
      JsonText.invalid =
      (ProgOutput.jsonOut
        [("error", JVal.str ("Unknown command: frobnicate"))], 1, []) :=
  (malformed_invocation_contract envPassAll JsonText.invalid
    ("hook-enforcer.py") ("frobnicate") []).2.2.2
    (by decide) (by decide) (by decide) (by decide) (by decide) (by decide)
    (by decide)
